import Mathlib

/-!
# Sidecar container assembly of vault-k8s (agent-inject/agent/container_sidecar.go)

A shallow embedding of `Agent.ContainerSidecar`, `Agent.parseResources`,
`parseQuantity` and `Agent.createLifecycle`.

Conventions of the embedding

* A Go result `(T, error)` is the pair `T × Option Error`; `none` is the `nil` error.
  The value component is kept on the failure paths as well, because the source
  returns one there too.
* A Go slice is a `List` (`nil` and the empty slice are both `[]`).
* A Go map is an association list with unique keys; a `nil` map is `none`.
* A Go pointer is an `Option`.
* `fmt.Sprintf` with `%s` is string concatenation, with `%d` on an unsigned integer it is
  the decimal numeral (`Nat.repr`).
* What the file uses but does not declare (the package constants for volume names
  and paths, `TokenFile`, the methods `ContainerEnvVars` and `vaultCliFlags`, and the library
  function `resource.ParseQuantity`) is a field of `Package`; every theorem is stated for an
  arbitrary `Package`.
-/

namespace VaultK8s

/-- A Go `error` value, identified by its message. -/
structure Error where
  msg : String
deriving DecidableEq, Repr

/-! ## k8s.io/apimachinery/pkg/api/resource -/

namespace resource

/-- The `int64Amount` of the library: `value * 10^scale`. -/
structure int64Amount where
  value : Int
  scale : Int
deriving DecidableEq, Repr

/-- The `resource.Quantity` struct: the fields `i`, `d` (a pointer to an arbitrary
precision decimal, `none` when nil, held as unscaled value and scale), the cached string `s`
and `Format`. -/
structure Quantity where
  i : int64Amount
  d : Option (Int × Int)
  s : String
  Format : String
deriving DecidableEq, Repr

/-- The `Format` constant `DecimalSI`. -/
def DecimalSI : String := "DecimalSI"

/-- The Go zero value of `Quantity`, what `var q resource.Quantity` declares. -/
def Quantity.zeroValue : Quantity :=
  { i := { value := 0, scale := 0 }, d := none, s := "", Format := "" }

end resource

/-! ## k8s.io/api/core/v1 -/

namespace corev1

/-- The fields of `corev1.VolumeMount` that the source sets. -/
structure VolumeMount where
  Name : String
  MountPath : String
  ReadOnly : Bool
deriving DecidableEq, Repr

/-- The fields of `corev1.EnvVar` with a literal value. -/
structure EnvVar where
  Name : String
  Value : String
deriving DecidableEq, Repr

/-- The key type of a resource list. -/
abbrev ResourceName := String

/-- The constant `corev1.ResourceCPU`. -/
def ResourceCPU : ResourceName := "cpu"

/-- The constant `corev1.ResourceMemory`. -/
def ResourceMemory : ResourceName := "memory"

/-- A non-nil `corev1.ResourceList` (`map[ResourceName]resource.Quantity`). -/
abbrev ResourceList := List (ResourceName × resource.Quantity)

/-- The map assignment `m[k] = v`. -/
def ResourceList.set : ResourceList → ResourceName → resource.Quantity → ResourceList
  | [], k, v => [(k, v)]
  | (k0, v0) :: rest, k, v =>
    if k0 = k then (k, v) :: rest else (k0, v0) :: ResourceList.set rest k v

/-- The map lookup `v, ok := m[k]`. -/
def ResourceList.get? : ResourceList → ResourceName → Option resource.Quantity
  | [], _ => none
  | (k0, v0) :: rest, k => if k0 = k then some v0 else ResourceList.get? rest k

/-- The struct `corev1.ResourceRequirements`; a field is `none` when the map is nil. -/
structure ResourceRequirements where
  Limits : Option ResourceList
  Requests : Option ResourceList
deriving DecidableEq, Repr

/-- The struct `corev1.SecurityContext`, restricted to the pointer fields the source sets. -/
structure SecurityContext where
  RunAsUser : Option Int
  RunAsGroup : Option Int
  RunAsNonRoot : Option Bool
deriving DecidableEq, Repr

/-- The struct `corev1.ExecAction`. -/
structure ExecAction where
  Command : List String
deriving DecidableEq, Repr

/-- The struct `corev1.Handler`, restricted to its `Exec` pointer. -/
structure Handler where
  Exec : Option ExecAction
deriving DecidableEq, Repr

/-- The struct `corev1.Lifecycle`. -/
structure Lifecycle where
  PostStart : Option Handler
  PreStop : Option Handler
deriving DecidableEq, Repr

/-- The struct `corev1.Container`, restricted to the fields the source sets. -/
structure Container where
  Name : String
  Image : String
  Env : List EnvVar
  Resources : ResourceRequirements
  SecurityContext : Option SecurityContext
  Lifecycle : Option Lifecycle
  VolumeMounts : List VolumeMount
  Command : List String
  Args : List String
deriving DecidableEq, Repr

/-- The Go zero value `corev1.Lifecycle{}`. -/
def Lifecycle.zeroValue : Lifecycle := { PostStart := none, PreStop := none }

/-- The Go zero value `corev1.ResourceRequirements{}`. -/
def ResourceRequirements.zeroValue : ResourceRequirements := { Limits := none, Requests := none }

/-- The Go zero value `corev1.Container{}`. -/
def Container.zeroValue : Container :=
  { Name := "", Image := "", Env := [], Resources := ResourceRequirements.zeroValue,
    SecurityContext := none, Lifecycle := none, VolumeMounts := [], Command := [], Args := [] }

end corev1

/-! ## Go standard library -/

namespace strings

/-- The function `strings.Join`: the elements separated by `sep`. -/
def Join : List String → String → String
  | [], _ => ""
  | [x], _ => x
  | x :: y :: rest, sep => x ++ sep ++ Join (y :: rest) sep

/-- The predicate `strings.Contains(s, substr)`: `substr` occurs in `s` as a contiguous run. -/
def Contains (s substr : String) : Prop := substr.data <:+: s.data

/-- The predicate `strings.HasSuffix(s, suffix)`. -/
def HasSuffix (s suffix : String) : Prop := suffix.data <:+ s.data

instance (s substr : String) : Decidable (Contains s substr) := by
  unfold Contains; infer_instance

instance (s suffix : String) : Decidable (HasSuffix s suffix) := by
  unfold HasSuffix; infer_instance

end strings

/-! ## The package `agent` -/

/-- The `Vault` part of the agent configuration, restricted to the field the source reads. -/
structure Vault where
  TLSSecret : String
deriving DecidableEq, Repr

/-- The `Agent` configuration, restricted to the fields the source reads. `RevokeGrace` is an
unsigned number of seconds. -/
structure Agent where
  ImageName : String
  ServiceAccountName : String
  ServiceAccountPath : String
  ConfigMapName : String
  LimitsCPU : String
  LimitsMem : String
  RequestsCPU : String
  RequestsMem : String
  RevokeOnShutdown : Bool
  RevokeGrace : Nat
  Vault : Vault
deriving DecidableEq, Repr

/-- What `container_sidecar.go` uses without declaring it: the volume constants of the package,
`TokenFile`, the methods `ContainerEnvVars` and `vaultCliFlags`, and the library function
`resource.ParseQuantity`. -/
structure Package where
  secretVolumeName : String
  secretVolumePath : String
  configVolumeName : String
  configVolumePath : String
  tlsSecretVolumeName : String
  tlsSecretVolumePath : String
  TokenFile : String
  ContainerEnvVars : Agent → Bool → List corev1.EnvVar × Option Error
  vaultCliFlags : Agent → List String
  ParseQuantity : String → resource.Quantity × Option Error

/-- The constant `DefaultContainerArg`. -/
def DefaultContainerArg : String :=
  "echo $\x7bVAULT_CONFIG?\x7d | base64 -d > /tmp/config.json && vault agent -config=/tmp/config.json"

/-- The constant `DefaultRevokeGrace`. -/
def DefaultRevokeGrace : Nat := 5

/-- The function `parseQuantity`: the empty string gives the zero value and no error, every
other string goes to `resource.ParseQuantity`. -/
def parseQuantity (P : Package) (raw : String) : resource.Quantity × Option Error :=
  if raw = "" then (resource.Quantity.zeroValue, none) else P.ParseQuantity raw

/-- The method `Agent.parseResources`. -/
def parseResources (P : Package) (a : Agent) : corev1.ResourceRequirements × Option Error :=
  let resources := corev1.ResourceRequirements.zeroValue
  let limits : corev1.ResourceList := []
  let requests : corev1.ResourceList := []
  match parseQuantity P a.LimitsCPU with
  | (_, some err) => (resources, some err)
  | (cpu, none) =>
    let limits := limits.set corev1.ResourceCPU cpu
    match parseQuantity P a.LimitsMem with
    | (_, some err) => (resources, some err)
    | (mem, none) =>
      let limits := limits.set corev1.ResourceMemory mem
      let resources := { resources with Limits := some limits }
      match parseQuantity P a.RequestsCPU with
      | (_, some err) => (resources, some err)
      | (cpu, none) =>
        let requests := requests.set corev1.ResourceCPU cpu
        match parseQuantity P a.RequestsMem with
        | (_, some err) => (resources, some err)
        | (mem, none) =>
          let requests := requests.set corev1.ResourceMemory mem
          let resources := { resources with Requests := some requests }
          (resources, none)

/-- The method `Agent.createLifecycle`. The command line is
`fmt.Sprintf("/bin/sleep %d && /bin/vault token revoke %s", a.RevokeGrace, strings.Join(flags, " "))`. -/
def createLifecycle (P : Package) (a : Agent) : corev1.Lifecycle :=
  let lifecycle := corev1.Lifecycle.zeroValue
  if a.RevokeOnShutdown then
    let flags := P.vaultCliFlags a
    let flags := flags ++ ["-self"]
    { lifecycle with
      PreStop := some
        { Exec := some
            { Command := ["/bin/sh", "-c",
                "/bin/sleep " ++ Nat.repr a.RevokeGrace ++ " && /bin/vault token revoke "
                  ++ strings.Join flags " "] } } }
  else
    lifecycle

/-- The method `Agent.ContainerSidecar`. -/
def ContainerSidecar (P : Package) (a : Agent) : corev1.Container × Option Error :=
  let volumeMounts : List corev1.VolumeMount :=
    [ { Name := P.secretVolumeName, MountPath := P.secretVolumePath, ReadOnly := false },
      { Name := a.ServiceAccountName, MountPath := a.ServiceAccountPath, ReadOnly := true } ]
  let arg := DefaultContainerArg
  let volumeMounts :=
    if a.ConfigMapName ≠ "" then
      volumeMounts ++
        [{ Name := P.configVolumeName, MountPath := P.configVolumePath, ReadOnly := true }]
    else volumeMounts
  let arg :=
    if a.ConfigMapName ≠ "" then
      "touch " ++ P.TokenFile ++ " && vault agent -config=" ++ P.configVolumePath ++ "/config.hcl"
    else arg
  let volumeMounts :=
    if a.Vault.TLSSecret ≠ "" then
      volumeMounts ++
        [{ Name := P.tlsSecretVolumeName, MountPath := P.tlsSecretVolumePath, ReadOnly := true }]
    else volumeMounts
  match P.ContainerEnvVars a false with
  | (_, some err) => (corev1.Container.zeroValue, some err)
  | (envs, none) =>
    match parseResources P a with
    | (_, some err) => (corev1.Container.zeroValue, some err)
    | (resources, none) =>
      let lifecycle := createLifecycle P a
      ({ Name := "vault-agent",
         Image := a.ImageName,
         Env := envs,
         Resources := resources,
         SecurityContext :=
           some { RunAsUser := some 100, RunAsGroup := some 1000, RunAsNonRoot := some true },
         Lifecycle := some lifecycle,
         VolumeMounts := volumeMounts,
         Command := ["/bin/sh", "-ec"],
         Args := [arg] }, none)

/-! ## Sample instances

A concrete package and concrete agents on which the general theorems are instantiated. -/

/-- A sample quantity parser: a finite table over the default resource strings of the source
and the string `0`; every other string is rejected. -/
def sampleParseQuantity (str : String) : resource.Quantity × Option Error :=
  if str = "0" then
    ({ i := { value := 0, scale := 0 }, d := none, s := "", Format := resource.DecimalSI }, none)
  else if str = "500m" then
    ({ i := { value := 500, scale := -3 }, d := none, s := "500m", Format := resource.DecimalSI }, none)
  else if str = "250m" then
    ({ i := { value := 250, scale := -3 }, d := none, s := "250m", Format := resource.DecimalSI }, none)
  else if str = "128Mi" then
    ({ i := { value := 134217728, scale := 0 }, d := none, s := "", Format := "BinarySI" }, none)
  else if str = "64Mi" then
    ({ i := { value := 67108864, scale := 0 }, d := none, s := "", Format := "BinarySI" }, none)
  else
    (resource.Quantity.zeroValue, some { msg := "invalid quantity: " ++ str })

/-- A sample package: volume constants, an environment builder that returns one variable, the
flag list holding the agent address, and the sample parser. -/
def samplePackage : Package :=
  { secretVolumeName := "vault-secrets"
    secretVolumePath := "/vault/secrets"
    configVolumeName := "vault-config"
    configVolumePath := "/vault/configs"
    tlsSecretVolumeName := "vault-tls-secrets"
    tlsSecretVolumePath := "/vault/tls"
    TokenFile := "/home/vault/.token"
    ContainerEnvVars := fun _ _ => ([{ Name := "VAULT_LOG_LEVEL", Value := "info" }], none)
    vaultCliFlags := fun _ => ["-address=http://127.0.0.1:8200"]
    ParseQuantity := sampleParseQuantity }

/-- The sample package with an environment builder that fails. -/
def failingEnvPackage : Package :=
  { samplePackage with
    ContainerEnvVars := fun _ _ => ([], some { msg := "env" }) }

/-- A sample agent: default resource strings, no config map, no TLS secret, token revocation
on shutdown after the default grace. -/
def sampleAgent : Agent :=
  { ImageName := "vault:1.3.2"
    ServiceAccountName := "app-token"
    ServiceAccountPath := "/var/run/secrets/kubernetes.io/serviceaccount"
    ConfigMapName := ""
    LimitsCPU := "500m"
    LimitsMem := "128Mi"
    RequestsCPU := "250m"
    RequestsMem := "64Mi"
    RevokeOnShutdown := true
    RevokeGrace := DefaultRevokeGrace
    Vault := { TLSSecret := "" } }

/-- A sample agent with a config map and a TLS secret. -/
def configMapAgent : Agent :=
  { sampleAgent with ConfigMapName := "agent-config", Vault := { TLSSecret := "vault-tls" } }

/-- A sample agent without a config map and with a TLS secret. -/
def tlsOnlyAgent : Agent :=
  { sampleAgent with Vault := { TLSSecret := "vault-tls" } }

/-- A sample agent whose CPU limit is not a quantity. -/
def badLimitAgent : Agent :=
  { sampleAgent with LimitsCPU := "abc" }

/-- A sample agent with two invalid resource strings, the memory limit and the CPU request. -/
def twoBadAgent : Agent :=
  { sampleAgent with LimitsMem := "1x", RequestsCPU := "abc" }

/-- A sample agent that does not revoke its token on shutdown. -/
def noRevokeAgent : Agent :=
  { sampleAgent with RevokeOnShutdown := false }

/-- A sample agent whose CPU limit is left unset (the empty string). -/
def unsetLimitAgent : Agent :=
  { sampleAgent with LimitsCPU := "" }

/-- A sample agent whose memory request is not a quantity. -/
def badRequestAgent : Agent :=
  { sampleAgent with RequestsMem := "abc" }

/-- A sample agent with the mount settings of `sampleAgent` and other image, resource and
shutdown settings. -/
def otherSettingsAgent : Agent :=
  { sampleAgent with
    ImageName := "vault:1.4.0", LimitsCPU := "250m", RequestsMem := "",
    RevokeOnShutdown := false, RevokeGrace := 30 }

/-- The sample package with a library parser that returns the zero-valued quantity, and no
error, for the string `0`. -/
def bareZeroPackage : Package :=
  { samplePackage with
    ParseQuantity := fun str =>
      if str = "0" then (resource.Quantity.zeroValue, none) else sampleParseQuantity str }

/-! ## Unfolding lemmas -/

/-- The container of a successful `ContainerSidecar`, field by field. -/
theorem ContainerSidecar_eq_ok (P : Package) (a : Agent) (c : corev1.Container)
    (h : ContainerSidecar P a = (c, none)) :
    ∃ envs resources,
      P.ContainerEnvVars a false = (envs, none) ∧ parseResources P a = (resources, none) ∧
      c =
        { Name := "vault-agent",
          Image := a.ImageName,
          Env := envs,
          Resources := resources,
          SecurityContext :=
            some { RunAsUser := some 100, RunAsGroup := some 1000, RunAsNonRoot := some true },
          Lifecycle := some (createLifecycle P a),
          VolumeMounts :=
            [ { Name := P.secretVolumeName, MountPath := P.secretVolumePath, ReadOnly := false },
              { Name := a.ServiceAccountName, MountPath := a.ServiceAccountPath,
                ReadOnly := true } ]
            ++ (if a.ConfigMapName ≠ "" then
                  [{ Name := P.configVolumeName, MountPath := P.configVolumePath,
                     ReadOnly := true }]
                else [])
            ++ (if a.Vault.TLSSecret ≠ "" then
                  [{ Name := P.tlsSecretVolumeName, MountPath := P.tlsSecretVolumePath,
                     ReadOnly := true }]
                else []),
          Command := ["/bin/sh", "-ec"],
          Args :=
            [if a.ConfigMapName ≠ "" then
               "touch " ++ P.TokenFile ++ " && vault agent -config=" ++ P.configVolumePath
                 ++ "/config.hcl"
             else DefaultContainerArg] } := by
  unfold ContainerSidecar at h
  rcases hEnv : P.ContainerEnvVars a false with ⟨envs, _ | e⟩
  · rcases hRes : parseResources P a with ⟨resources, _ | e⟩
    · refine ⟨envs, resources, rfl, rfl, ?_⟩
      simp only [hEnv, hRes] at h
      have hc := (Prod.mk.inj h).1
      rw [← hc]
      by_cases h1 : a.ConfigMapName = "" <;> by_cases h2 : a.Vault.TLSSecret = "" <;>
        simp [h1, h2]
    · simp [hEnv, hRes] at h
  · simp [hEnv] at h

/-- A string written as `pre ++ sub ++ post` contains `sub`. -/
theorem strings.Contains_of_eq (pre sub post : String) {s : String}
    (h : s = pre ++ sub ++ post) :
    strings.Contains s sub := by
  subst h
  exact ⟨pre.data, post.data, by simp [String.data_append]⟩

/-- A string written as `pre ++ suf` has the suffix `suf`. -/
theorem strings.HasSuffix_of_eq (pre suf : String) {s : String} (h : s = pre ++ suf) :
    strings.HasSuffix s suf := by
  subst h
  exact ⟨pre.data, by simp [String.data_append]⟩

/-- Joining a list that ends in `x` gives a string that ends in `x`. -/
theorem strings.Join_append_singleton (F : List String) (x sep : String) :
    ∃ pre, strings.Join (F ++ [x]) sep = pre ++ x := by
  induction F with
  | nil => exact ⟨"", by simp [strings.Join]⟩
  | cons y rest ih =>
    obtain ⟨pre, hpre⟩ := ih
    cases rest with
    | nil => exact ⟨y ++ sep, by simp [strings.Join]⟩
    | cons z rest =>
      refine ⟨y ++ sep ++ pre, ?_⟩
      have hstep : strings.Join (y :: z :: rest ++ [x]) sep =
          y ++ sep ++ strings.Join (z :: rest ++ [x]) sep := rfl
      rw [hstep, hpre]
      simp only [String.append_assoc]

/-- The error of `parseResources` is the first error among the four `parseQuantity` calls, in
the order of the source. -/
theorem parseResources_error (P : Package) (a : Agent) :
    (parseResources P a).2 =
      [a.LimitsCPU, a.LimitsMem, a.RequestsCPU, a.RequestsMem].findSome?
        (fun raw => (parseQuantity P raw).2) := by
  unfold parseResources
  rcases h1 : parseQuantity P a.LimitsCPU with ⟨q1, _ | e1⟩ <;>
  rcases h2 : parseQuantity P a.LimitsMem with ⟨q2, _ | e2⟩ <;>
  rcases h3 : parseQuantity P a.RequestsCPU with ⟨q3, _ | e3⟩ <;>
  rcases h4 : parseQuantity P a.RequestsMem with ⟨q4, _ | e4⟩ <;>
  simp [List.findSome?, h1, h2, h3, h4]

/-- The error of `ContainerSidecar` is the error of `ContainerEnvVars(false)` when there is
one, and the error of `parseResources` otherwise. -/
theorem ContainerSidecar_error (P : Package) (a : Agent) :
    (ContainerSidecar P a).2 =
      match (P.ContainerEnvVars a false).2 with
      | some err => some err
      | none => (parseResources P a).2 := by
  unfold ContainerSidecar
  rcases hEnv : P.ContainerEnvVars a false with ⟨envs, _ | e⟩ <;>
  rcases hRes : parseResources P a with ⟨resources, _ | e2⟩ <;> simp

/-- A list of optional errors has a first error exactly when one of its entries is one. -/
theorem findSome?_ne_none_iff {α β : Type} (f : α → Option β) (l : List α) :
    l.findSome? f ≠ none ↔ ∃ x ∈ l, f x ≠ none := by
  induction l with
  | nil => simp
  | cons x rest ih =>
    cases hx : f x with
    | none => simp [List.findSome?, hx, ih]
    | some y => simp [List.findSome?, hx]

/-- The value of a successful `parseResources`: both maps are set and each holds the two
quantities parsed from its own fields. -/
theorem parseResources_value (P : Package) (a : Agent) (h : (parseResources P a).2 = none) :
    (parseResources P a).1 =
      { Limits := some [(corev1.ResourceCPU, (parseQuantity P a.LimitsCPU).1),
                        (corev1.ResourceMemory, (parseQuantity P a.LimitsMem).1)],
        Requests := some [(corev1.ResourceCPU, (parseQuantity P a.RequestsCPU).1),
                          (corev1.ResourceMemory, (parseQuantity P a.RequestsMem).1)] } := by
  unfold parseResources at h ⊢
  rcases h1 : parseQuantity P a.LimitsCPU with ⟨q1, _ | e1⟩ <;>
  rcases h2 : parseQuantity P a.LimitsMem with ⟨q2, _ | e2⟩ <;>
  rcases h3 : parseQuantity P a.RequestsCPU with ⟨q3, _ | e3⟩ <;>
  rcases h4 : parseQuantity P a.RequestsMem with ⟨q4, _ | e4⟩ <;>
  simp [h1, h2, h3, h4] at h ⊢
  simp [corev1.ResourceList.set, corev1.ResourceCPU, corev1.ResourceMemory,
    corev1.ResourceRequirements.zeroValue]

/-- A successful `parseResources` means that `parseQuantity` accepted all four fields. -/
theorem parseResources_ok_fields (P : Package) (a : Agent) (h : (parseResources P a).2 = none) :
    (parseQuantity P a.LimitsCPU).2 = none ∧ (parseQuantity P a.LimitsMem).2 = none ∧
    (parseQuantity P a.RequestsCPU).2 = none ∧ (parseQuantity P a.RequestsMem).2 = none := by
  rw [parseResources_error] at h
  simpa [List.findSome?_eq_none_iff] using h

/-! ## Mounts and startup argument -/

/-- C1, as stated, fails: the agent `tlsOnlyAgent` has an empty `ConfigMapName`,
`ContainerSidecar` succeeds on it, and the returned container has three volume mounts (the
TLS-secret mount is the third), not two. -/
theorem C1_two_mounts_counterexample :
    tlsOnlyAgent.ConfigMapName = "" ∧
    (ContainerSidecar samplePackage tlsOnlyAgent).2 = none ∧
    (ContainerSidecar samplePackage tlsOnlyAgent).1.Args = [DefaultContainerArg] ∧
    (ContainerSidecar samplePackage tlsOnlyAgent).1.VolumeMounts.length = 3 ∧
    (ContainerSidecar samplePackage tlsOnlyAgent).1.VolumeMounts ≠
      [ { Name := samplePackage.secretVolumeName, MountPath := samplePackage.secretVolumePath,
          ReadOnly := false },
        { Name := tlsOnlyAgent.ServiceAccountName, MountPath := tlsOnlyAgent.ServiceAccountPath,
          ReadOnly := true } ] := by
  decide

/-- C1 (amended): when `ConfigMapName` is empty and `ContainerSidecar` succeeds, `Args` is
`[DefaultContainerArg]` and `VolumeMounts` is the secret mount, then the service-account mount,
then the TLS-secret mount exactly when `Vault.TLSSecret` is non-empty; so it has exactly two
entries when `Vault.TLSSecret` is empty as well. -/
theorem C1_default_arg_and_base_mounts (P : Package) (a : Agent) (c : corev1.Container)
    (hcm : a.ConfigMapName = "") (h : ContainerSidecar P a = (c, none)) :
    c.Args = [DefaultContainerArg] ∧
    c.VolumeMounts =
      [ { Name := P.secretVolumeName, MountPath := P.secretVolumePath, ReadOnly := false },
        { Name := a.ServiceAccountName, MountPath := a.ServiceAccountPath, ReadOnly := true } ]
      ++ (if a.Vault.TLSSecret ≠ "" then
            [{ Name := P.tlsSecretVolumeName, MountPath := P.tlsSecretVolumePath,
               ReadOnly := true }]
          else []) ∧
    (a.Vault.TLSSecret = "" →
      c.VolumeMounts.length = 2 ∧
      c.VolumeMounts =
        [ { Name := P.secretVolumeName, MountPath := P.secretVolumePath, ReadOnly := false },
          { Name := a.ServiceAccountName, MountPath := a.ServiceAccountPath,
            ReadOnly := true } ]) := by
  obtain ⟨envs, resources, -, -, rfl⟩ := ContainerSidecar_eq_ok P a c h
  refine ⟨by simp [hcm], by simp [hcm], ?_⟩
  intro htls
  simp [hcm, htls]

/-- Witness of C1 (amended) on the sample agent, which has neither config map nor TLS secret. -/
theorem C1_default_arg_and_base_mounts_witness :
    (ContainerSidecar samplePackage sampleAgent).1.Args = [DefaultContainerArg] ∧
    (ContainerSidecar samplePackage sampleAgent).1.VolumeMounts.length = 2 :=
  have h := C1_default_arg_and_base_mounts samplePackage sampleAgent
    (ContainerSidecar samplePackage sampleAgent).1 (by decide) (by decide)
  ⟨h.1, (h.2.2 (by decide)).1⟩

/-- C2: when `ConfigMapName` is non-empty and `ContainerSidecar` succeeds, the read-only
config-map mount is among the volume mounts, and `Args` is the single string
`touch <TokenFile> && vault agent -config=<configVolumePath>/config.hcl`, which contains
`configVolumePath` and differs from `DefaultContainerArg`. -/
theorem C2_config_map_mount_and_arg (P : Package) (a : Agent) (c : corev1.Container)
    (hcm : a.ConfigMapName ≠ "") (h : ContainerSidecar P a = (c, none)) :
    ({ Name := P.configVolumeName, MountPath := P.configVolumePath, ReadOnly := true }
        : corev1.VolumeMount) ∈ c.VolumeMounts ∧
    c.Args =
      ["touch " ++ P.TokenFile ++ " && vault agent -config=" ++ P.configVolumePath
        ++ "/config.hcl"] ∧
    strings.Contains
      ("touch " ++ P.TokenFile ++ " && vault agent -config=" ++ P.configVolumePath
        ++ "/config.hcl") P.configVolumePath ∧
    "touch " ++ P.TokenFile ++ " && vault agent -config=" ++ P.configVolumePath
        ++ "/config.hcl" ≠ DefaultContainerArg := by
  obtain ⟨envs, resources, -, -, rfl⟩ := ContainerSidecar_eq_ok P a c h
  refine ⟨by simp [hcm], by simp [hcm], ?_, ?_⟩
  · exact strings.Contains_of_eq ("touch " ++ P.TokenFile ++ " && vault agent -config=")
      P.configVolumePath "/config.hcl" rfl
  · intro heq
    have hd := congrArg String.data heq
    have hdef : DefaultContainerArg.data = 'e' :: (DefaultContainerArg.drop 1).data := by decide
    rw [hdef] at hd
    have ht : "touch ".data = 't' :: "ouch ".data := by decide
    simp only [String.data_append, ht, List.cons_append, List.cons.injEq] at hd
    exact absurd hd.1 (by decide)

/-- Witness of C2 on the sample agent with a config map. -/
theorem C2_config_map_mount_and_arg_witness :
    (ContainerSidecar samplePackage configMapAgent).1.Args =
      ["touch /home/vault/.token && vault agent -config=/vault/configs/config.hcl"] :=
  (C2_config_map_mount_and_arg samplePackage configMapAgent
    (ContainerSidecar samplePackage configMapAgent).1 (by decide) (by decide)).2.1

/-- C3: when `Vault.TLSSecret` is non-empty and `ContainerSidecar` succeeds, the read-only
TLS-secret mount is among the volume mounts, for an empty and for a non-empty `ConfigMapName`
alike, and it is the last entry of the list. -/
theorem C3_tls_mount_last (P : Package) (a : Agent) (c : corev1.Container)
    (htls : a.Vault.TLSSecret ≠ "") (h : ContainerSidecar P a = (c, none)) :
    ({ Name := P.tlsSecretVolumeName, MountPath := P.tlsSecretVolumePath, ReadOnly := true }
        : corev1.VolumeMount) ∈ c.VolumeMounts ∧
    c.VolumeMounts.getLast? =
      some { Name := P.tlsSecretVolumeName, MountPath := P.tlsSecretVolumePath,
             ReadOnly := true } := by
  obtain ⟨envs, resources, -, -, rfl⟩ := ContainerSidecar_eq_ok P a c h
  by_cases hcm : a.ConfigMapName = "" <;> simp [hcm, htls]

/-- Witness of C3 on two sample agents, one without and one with a config map. -/
theorem C3_tls_mount_last_witness :
    (ContainerSidecar samplePackage tlsOnlyAgent).1.VolumeMounts.getLast? =
      some { Name := "vault-tls-secrets", MountPath := "/vault/tls", ReadOnly := true } ∧
    (ContainerSidecar samplePackage configMapAgent).1.VolumeMounts.getLast? =
      some { Name := "vault-tls-secrets", MountPath := "/vault/tls", ReadOnly := true } :=
  ⟨(C3_tls_mount_last samplePackage tlsOnlyAgent
      (ContainerSidecar samplePackage tlsOnlyAgent).1 (by decide) (by decide)).2,
   (C3_tls_mount_last samplePackage configMapAgent
      (ContainerSidecar samplePackage configMapAgent).1 (by decide) (by decide)).2⟩

/-! ## Lifecycle hook -/

/-- C4: with `RevokeOnShutdown` set, `createLifecycle` returns the lifecycle whose `PreStop`
runs exactly `/bin/sh -c s`, where `s` is `/bin/sleep `, the decimal numeral of `RevokeGrace`,
` && /bin/vault token revoke ` and the flags of `vaultCliFlags` followed by `-self`, joined
by single spaces. The line `s` contains `vault token revoke` and ends with `-self`; for a
grace of 5 it is `/bin/sleep 5 && ...` and contains `sleep 5`. -/
theorem C4_prestop_command (P : Package) (a : Agent) (n : Nat) (F : List String)
    (hrev : a.RevokeOnShutdown = true) (hn : a.RevokeGrace = n) (hF : P.vaultCliFlags a = F) :
    createLifecycle P a =
      { PostStart := none,
        PreStop := some
          { Exec := some
              { Command := ["/bin/sh", "-c",
                  "/bin/sleep " ++ Nat.repr n ++ " && /bin/vault token revoke "
                    ++ strings.Join (F ++ ["-self"]) " "] } } } ∧
    strings.Contains
      ("/bin/sleep " ++ Nat.repr n ++ " && /bin/vault token revoke "
        ++ strings.Join (F ++ ["-self"]) " ") "vault token revoke" ∧
    strings.HasSuffix
      ("/bin/sleep " ++ Nat.repr n ++ " && /bin/vault token revoke "
        ++ strings.Join (F ++ ["-self"]) " ") "-self" ∧
    (n = 5 →
      "/bin/sleep " ++ Nat.repr n ++ " && /bin/vault token revoke "
          ++ strings.Join (F ++ ["-self"]) " " =
        "/bin/sleep 5 && /bin/vault token revoke " ++ strings.Join (F ++ ["-self"]) " " ∧
      strings.Contains
        ("/bin/sleep " ++ Nat.repr n ++ " && /bin/vault token revoke "
          ++ strings.Join (F ++ ["-self"]) " ") "sleep 5") := by
  refine ⟨?_, ?_, ?_, ?_⟩
  · simp [createLifecycle, hrev, hn, hF, corev1.Lifecycle.zeroValue]
  · apply strings.Contains_of_eq ("/bin/sleep " ++ Nat.repr n ++ " && /bin/")
      "vault token revoke" (" " ++ strings.Join (F ++ ["-self"]) " ")
    have e : " && /bin/vault token revoke " = " && /bin/" ++ "vault token revoke" ++ " " := by
      decide
    rw [e]
    simp only [String.append_assoc]
  · obtain ⟨pre, hpre⟩ := strings.Join_append_singleton F "-self" " "
    apply strings.HasSuffix_of_eq
      ("/bin/sleep " ++ Nat.repr n ++ " && /bin/vault token revoke " ++ pre) "-self"
    rw [hpre]
    simp only [String.append_assoc]
  · intro h5
    subst h5
    have e5 : Nat.repr 5 = "5" := by decide
    have e : "/bin/sleep 5 && /bin/vault token revoke " =
        "/bin/sleep " ++ "5" ++ " && /bin/vault token revoke " := by decide
    refine ⟨by rw [e5, e], ?_⟩
    apply strings.Contains_of_eq "/bin/" "sleep 5"
      (" && /bin/vault token revoke " ++ strings.Join (F ++ ["-self"]) " ")
    have e2 : "/bin/sleep " = "/bin/" ++ "sleep " := by decide
    have e3 : "sleep 5" = "sleep " ++ "5" := by decide
    rw [e5, e2, e3]
    simp only [String.append_assoc]

/-- Witness of C4 on the sample agent: grace 5 and one connection flag. -/
theorem C4_prestop_command_witness :
    (createLifecycle samplePackage sampleAgent).PreStop =
      some { Exec := some { Command := ["/bin/sh", "-c",
        "/bin/sleep 5 && /bin/vault token revoke -address=http://127.0.0.1:8200 -self"] } } ∧
    strings.Contains
      "/bin/sleep 5 && /bin/vault token revoke -address=http://127.0.0.1:8200 -self"
      "sleep 5" ∧
    strings.Contains
      "/bin/sleep 5 && /bin/vault token revoke -address=http://127.0.0.1:8200 -self"
      "vault token revoke" ∧
    strings.HasSuffix
      "/bin/sleep 5 && /bin/vault token revoke -address=http://127.0.0.1:8200 -self"
      "-self" :=
  have h := C4_prestop_command samplePackage sampleAgent 5 ["-address=http://127.0.0.1:8200"]
    (by decide) (by decide) (by decide)
  ⟨(congrArg corev1.Lifecycle.PreStop h.1).trans (by decide), (h.2.2.2 rfl).2, h.2.1, h.2.2.1⟩

/-- C5: with `RevokeOnShutdown` unset, `createLifecycle` returns the empty lifecycle (no
`PreStop`, no `PostStart`) whatever `RevokeGrace` and the connection flags are, and the
container of a successful `ContainerSidecar` carries that empty lifecycle, hence no pre-stop
action. -/
theorem C5_no_hook_without_revoke (P : Package) (a : Agent)
    (hrev : a.RevokeOnShutdown = false) :
    createLifecycle P a = { PostStart := none, PreStop := none } ∧
    (∀ P2 : Package, ∀ n : Nat,
      createLifecycle P2 { a with RevokeGrace := n } = { PostStart := none, PreStop := none }) ∧
    (∀ c, ContainerSidecar P a = (c, none) →
      c.Lifecycle = some { PostStart := none, PreStop := none } ∧
      (c.Lifecycle.bind fun l => l.PreStop) = none) := by
  have hl : ∀ (Q : Package) (b : Agent), b.RevokeOnShutdown = false →
      createLifecycle Q b = { PostStart := none, PreStop := none } := by
    intro Q b hb
    simp [createLifecycle, hb, corev1.Lifecycle.zeroValue]
  refine ⟨hl P a hrev, fun P2 n => hl P2 _ hrev, ?_⟩
  intro c h
  obtain ⟨envs, resources, -, -, rfl⟩ := ContainerSidecar_eq_ok P a c h
  simp [hl P a hrev]

/-- Witness of C5 on the sample agent with revocation switched off. -/
theorem C5_no_hook_without_revoke_witness :
    createLifecycle samplePackage noRevokeAgent = { PostStart := none, PreStop := none } ∧
    (ContainerSidecar samplePackage noRevokeAgent).2 = none ∧
    (ContainerSidecar samplePackage noRevokeAgent).1.Lifecycle =
      some { PostStart := none, PreStop := none } :=
  have h := C5_no_hook_without_revoke samplePackage noRevokeAgent (by decide)
  ⟨h.1, by decide,
    (h.2.2 (ContainerSidecar samplePackage noRevokeAgent).1 (by decide)).1⟩

/-! ## Security context -/

/-- C6: the container of a successful `ContainerSidecar` has a security context, and it sets
`RunAsNonRoot` to true, `RunAsUser` to 100 and `RunAsGroup` to 1000, whatever the agent
configuration is. -/
theorem C6_security_context_fixed (P : Package) (a : Agent) (c : corev1.Container)
    (h : ContainerSidecar P a = (c, none)) :
    c.SecurityContext =
      some { RunAsUser := some 100, RunAsGroup := some 1000, RunAsNonRoot := some true } := by
  obtain ⟨envs, resources, -, -, rfl⟩ := ContainerSidecar_eq_ok P a c h
  rfl

/-- Witness of C6 on the sample agent. -/
theorem C6_security_context_fixed_witness :
    (ContainerSidecar samplePackage sampleAgent).1.SecurityContext =
      some { RunAsUser := some 100, RunAsGroup := some 1000, RunAsNonRoot := some true } :=
  C6_security_context_fixed samplePackage sampleAgent
    (ContainerSidecar samplePackage sampleAgent).1 (by decide)

/-! ## Resource validation and errors -/

/-- C7: `parseResources` fails exactly when `parseQuantity` rejects one of `LimitsCPU`,
`LimitsMem`, `RequestsCPU`, `RequestsMem`, and the error it returns is the one `parseQuantity`
gives for the first rejected field in that order (nil when none is rejected). -/
theorem C7_parseResources_fails_on_first_invalid (P : Package) (a : Agent) :
    ((parseResources P a).2 ≠ none ↔
      ∃ raw ∈ [a.LimitsCPU, a.LimitsMem, a.RequestsCPU, a.RequestsMem],
        (parseQuantity P raw).2 ≠ none) ∧
    (parseResources P a).2 =
      [a.LimitsCPU, a.LimitsMem, a.RequestsCPU, a.RequestsMem].findSome?
        (fun raw => (parseQuantity P raw).2) ∧
    (∀ e, (parseQuantity P a.LimitsCPU).2 = some e → (parseResources P a).2 = some e) ∧
    (∀ e, (parseQuantity P a.LimitsCPU).2 = none → (parseQuantity P a.LimitsMem).2 = some e →
      (parseResources P a).2 = some e) ∧
    (∀ e, (parseQuantity P a.LimitsCPU).2 = none → (parseQuantity P a.LimitsMem).2 = none →
      (parseQuantity P a.RequestsCPU).2 = some e → (parseResources P a).2 = some e) ∧
    (∀ e, (parseQuantity P a.LimitsCPU).2 = none → (parseQuantity P a.LimitsMem).2 = none →
      (parseQuantity P a.RequestsCPU).2 = none → (parseQuantity P a.RequestsMem).2 = some e →
      (parseResources P a).2 = some e) := by
  have herr := parseResources_error P a
  refine ⟨?_, herr, ?_, ?_, ?_, ?_⟩
  · rw [herr]
    exact findSome?_ne_none_iff _ _
  · intro e h1
    rw [herr]; simp [List.findSome?, h1]
  · intro e h1 h2
    rw [herr]; simp [List.findSome?, h1, h2]
  · intro e h1 h2 h3
    rw [herr]; simp [List.findSome?, h1, h2, h3]
  · intro e h1 h2 h3 h4
    rw [herr]; simp [List.findSome?, h1, h2, h3, h4]

/-- Witness of C7 on the sample agent with two invalid fields: `parseResources` fails with the
error of `LimitsMem`, which comes before `RequestsCPU`. -/
theorem C7_parseResources_fails_on_first_invalid_witness :
    (parseQuantity samplePackage twoBadAgent.LimitsMem).2 =
      some { msg := "invalid quantity: 1x" } ∧
    (parseQuantity samplePackage twoBadAgent.RequestsCPU).2 =
      some { msg := "invalid quantity: abc" } ∧
    (parseResources samplePackage twoBadAgent).2 = some { msg := "invalid quantity: 1x" } :=
  ⟨by decide, by decide,
   (C7_parseResources_fails_on_first_invalid samplePackage twoBadAgent).2.2.2.1
     { msg := "invalid quantity: 1x" } (by decide) (by decide)⟩

/-- C8, as stated, fails: in `failingEnvPackage` the call `ContainerEnvVars(false)` returns an
error; `parseQuantity` accepts all four resource strings of `sampleAgent`, and
`ContainerSidecar` fails all the same, with the error of `ContainerEnvVars`. -/
theorem C8_env_error_counterexample :
    (∀ raw ∈ [sampleAgent.LimitsCPU, sampleAgent.LimitsMem, sampleAgent.RequestsCPU,
        sampleAgent.RequestsMem], (parseQuantity failingEnvPackage raw).2 = none) ∧
    (parseResources failingEnvPackage sampleAgent).2 = none ∧
    (ContainerSidecar failingEnvPackage sampleAgent).2 = some { msg := "env" } := by
  decide

/-- C8 (amended): `ContainerSidecar` returns an error exactly when `ContainerEnvVars(false)`
returns one or `parseQuantity` rejects one of the four resource strings; mount selection,
command selection and hook construction cannot make it fail. -/
theorem C8_failure_paths (P : Package) (a : Agent) :
    (ContainerSidecar P a).2 ≠ none ↔
      ((P.ContainerEnvVars a false).2 ≠ none ∨
        ∃ raw ∈ [a.LimitsCPU, a.LimitsMem, a.RequestsCPU, a.RequestsMem],
          (parseQuantity P raw).2 ≠ none) := by
  rw [ContainerSidecar_error, ← findSome?_ne_none_iff, ← parseResources_error]
  cases hEnv : (P.ContainerEnvVars a false).2 <;> simp

/-- C9: when `ContainerEnvVars(false)` succeeds and `parseResources` fails with `e`,
`ContainerSidecar` returns the error `e` itself together with the zero-valued container: no
name, image, environment, resources, security context, lifecycle, mounts, command or args. -/
theorem C9_resource_error_propagated (P : Package) (a : Agent) (e : Error)
    (henv : (P.ContainerEnvVars a false).2 = none) (hres : (parseResources P a).2 = some e) :
    ContainerSidecar P a =
      ({ Name := "", Image := "", Env := [],
         Resources := { Limits := none, Requests := none },
         SecurityContext := none, Lifecycle := none, VolumeMounts := [], Command := [],
         Args := [] }, some e) := by
  unfold ContainerSidecar
  rcases hEnv : P.ContainerEnvVars a false with ⟨envs, _ | e1⟩
  · rcases hRes : parseResources P a with ⟨resources, _ | e2⟩
    · rw [hRes] at hres; simp at hres
    · rw [hRes] at hres
      simp only [Option.some.injEq] at hres
      subst hres
      rfl
  · rw [hEnv] at henv; simp at henv

/-- Witness of C9 on the sample agent with the CPU limit `abc`. -/
theorem C9_resource_error_propagated_witness :
    (parseResources samplePackage badLimitAgent).2 = some { msg := "invalid quantity: abc" } ∧
    ContainerSidecar samplePackage badLimitAgent =
      ({ Name := "", Image := "", Env := [],
         Resources := { Limits := none, Requests := none },
         SecurityContext := none, Lifecycle := none, VolumeMounts := [], Command := [],
         Args := [] }, some { msg := "invalid quantity: abc" }) :=
  ⟨by decide,
   C9_resource_error_propagated samplePackage badLimitAgent { msg := "invalid quantity: abc" }
    (by decide) (by decide)⟩

/-- C10, as stated, fails: in `bareZeroPackage` the library parser accepts the string `0` and
returns the zero-valued quantity for it; `parseQuantity` on the empty string succeeds, and the
quantity it returns equals the one it returns for `0`, so the two cannot be told apart. -/
theorem C10_unset_equals_parsed_zero_counterexample :
    (parseQuantity bareZeroPackage "").2 = none ∧
    (parseQuantity bareZeroPackage "0").2 = none ∧
    (parseQuantity bareZeroPackage "").1 = (parseQuantity bareZeroPackage "0").1 ∧
    parseQuantity bareZeroPackage "" = parseQuantity bareZeroPackage "0" := by
  decide

/-- C10 (amended): `parseQuantity` on the empty string returns no error and the zero-valued
`Quantity`, whatever the library parser is (it is not called); on the string `0` it returns
what the library parser returns; so the quantity for the empty string differs from the one
parsed from `0` exactly when the library parser returns for `0` a quantity other than the zero
value. -/
theorem C10_empty_is_zero_value (P : Package) :
    parseQuantity P "" =
      ({ i := { value := 0, scale := 0 }, d := none, s := "", Format := "" }, none) ∧
    (∀ P2 : Package, parseQuantity P2 "" = parseQuantity P "") ∧
    parseQuantity P "0" = P.ParseQuantity "0" ∧
    ((parseQuantity P "").1 ≠ (parseQuantity P "0").1 ↔
      (P.ParseQuantity "0").1 ≠
        { i := { value := 0, scale := 0 }, d := none, s := "", Format := "" }) := by
  have h0 : parseQuantity P "0" = P.ParseQuantity "0" := by
    simp [parseQuantity]
  have hE : ∀ Q : Package, parseQuantity Q "" =
      ({ i := { value := 0, scale := 0 }, d := none, s := "", Format := "" }, none) := by
    intro Q
    simp [parseQuantity, resource.Quantity.zeroValue]
  refine ⟨hE P, fun P2 => (hE P2).trans (hE P).symm, h0, ?_⟩
  rw [h0, hE P]
  exact ⟨fun h heq => h heq.symm, fun h heq => h heq.symm⟩

/-- Witness of C10 (amended) on the sample package, whose parser returns a `DecimalSI` zero for
`0`: there the quantity for the empty string differs from the parsed one. -/
theorem C10_empty_is_zero_value_witness :
    (parseQuantity samplePackage "").2 = none ∧
    (parseQuantity samplePackage "").1 ≠ (parseQuantity samplePackage "0").1 :=
  have h := C10_empty_is_zero_value samplePackage
  ⟨congrArg Prod.snd h.1, h.2.2.2.mpr (by decide)⟩

/-- C11: on a non-empty string `parseQuantity` returns exactly what the library parser
`resource.ParseQuantity` returns, quantity and error alike; so it succeeds exactly when the
parser does, and on a rejected string the pair it returns is the parser's own error result. -/
theorem C11_nonempty_delegates (P : Package) (raw : String) (hraw : raw ≠ "") :
    parseQuantity P raw = P.ParseQuantity raw ∧
    ((parseQuantity P raw).2 = none ↔ (P.ParseQuantity raw).2 = none) ∧
    (∀ e, (P.ParseQuantity raw).2 = some e →
      (parseQuantity P raw).2 = some e ∧ (parseQuantity P raw).1 = (P.ParseQuantity raw).1) := by
  have h : parseQuantity P raw = P.ParseQuantity raw := by
    simp [parseQuantity, hraw]
  refine ⟨h, by rw [h], ?_⟩
  intro e he
  rw [h]
  exact ⟨he, rfl⟩

/-- Witness of C11 on the sample parser: `500m` and `128Mi` are accepted with the parsed
quantity, `abc` and `-1x` are rejected with the error of the parser. -/
theorem C11_nonempty_delegates_witness :
    parseQuantity samplePackage "500m" =
      ({ i := { value := 500, scale := -3 }, d := none, s := "500m", Format := "DecimalSI" },
        none) ∧
    parseQuantity samplePackage "128Mi" = sampleParseQuantity "128Mi" ∧
    (parseQuantity samplePackage "abc").2 = some { msg := "invalid quantity: abc" } ∧
    (parseQuantity samplePackage "-1x").2 = some { msg := "invalid quantity: -1x" } :=
  ⟨(C11_nonempty_delegates samplePackage "500m" (by decide)).1.trans (by decide),
   (C11_nonempty_delegates samplePackage "128Mi" (by decide)).1,
   ((C11_nonempty_delegates samplePackage "abc" (by decide)).2.2
      { msg := "invalid quantity: abc" } (by decide)).1,
   ((C11_nonempty_delegates samplePackage "-1x" (by decide)).2.2
      { msg := "invalid quantity: -1x" } (by decide)).1⟩

/-- C12, as stated, fails: `unsetLimitAgent` has the empty string as CPU limit,
`parseResources` succeeds on it, and the key `cpu` is present in the returned limits map, bound
to the zero-valued quantity. -/
theorem C12_unset_key_present_counterexample :
    unsetLimitAgent.LimitsCPU = "" ∧
    (parseResources samplePackage unsetLimitAgent).2 = none ∧
    ((parseResources samplePackage unsetLimitAgent).1.Limits.bind
        fun l => l.get? corev1.ResourceCPU) =
      some { i := { value := 0, scale := 0 }, d := none, s := "", Format := "" } ∧
    ((parseResources samplePackage unsetLimitAgent).1.Limits.bind
        fun l => l.get? corev1.ResourceCPU) ≠ none := by
  decide

/-- C12 (amended): in the value of a successful `parseResources`, a resource field whose input
string is empty is present in its map: the key (`cpu` or `memory`) of the limits or requests
map is bound to the zero-valued quantity. -/
theorem C12_unset_field_is_zero_entry (P : Package) (a : Agent)
    (r : corev1.ResourceRequirements) (h : parseResources P a = (r, none)) :
    (a.LimitsCPU = "" →
      (r.Limits.bind fun l => l.get? corev1.ResourceCPU) =
        some { i := { value := 0, scale := 0 }, d := none, s := "", Format := "" }) ∧
    (a.LimitsMem = "" →
      (r.Limits.bind fun l => l.get? corev1.ResourceMemory) =
        some { i := { value := 0, scale := 0 }, d := none, s := "", Format := "" }) ∧
    (a.RequestsCPU = "" →
      (r.Requests.bind fun l => l.get? corev1.ResourceCPU) =
        some { i := { value := 0, scale := 0 }, d := none, s := "", Format := "" }) ∧
    (a.RequestsMem = "" →
      (r.Requests.bind fun l => l.get? corev1.ResourceMemory) =
        some { i := { value := 0, scale := 0 }, d := none, s := "", Format := "" }) := by
  have hv := parseResources_value P a (by rw [h])
  rw [h] at hv
  simp only at hv
  subst hv
  refine ⟨?_, ?_, ?_, ?_⟩ <;> intro he <;>
    simp [he, parseQuantity, corev1.ResourceList.get?, corev1.ResourceCPU,
      corev1.ResourceMemory, resource.Quantity.zeroValue]

/-- Witness of C12 (amended) on the sample agent with an empty CPU limit. -/
theorem C12_unset_field_is_zero_entry_witness :
    ((parseResources samplePackage unsetLimitAgent).1.Limits.bind
        fun l => l.get? corev1.ResourceCPU) =
      some { i := { value := 0, scale := 0 }, d := none, s := "", Format := "" } :=
  (C12_unset_field_is_zero_entry samplePackage unsetLimitAgent
    (parseResources samplePackage unsetLimitAgent).1 (by decide)).1 (by decide)

/-- C13: when `parseQuantity` accepts all four resource strings, `parseResources` succeeds and
returns the limits map with `cpu` bound to the quantity of `LimitsCPU` and `memory` to that of
`LimitsMem`, and the requests map with `cpu` bound to the quantity of `RequestsCPU` and
`memory` to that of `RequestsMem`; the container of a successful `ContainerSidecar` carries
exactly this value in `Resources`. -/
theorem C13_resources_slots (P : Package) (a : Agent)
    (h1 : (parseQuantity P a.LimitsCPU).2 = none) (h2 : (parseQuantity P a.LimitsMem).2 = none)
    (h3 : (parseQuantity P a.RequestsCPU).2 = none)
    (h4 : (parseQuantity P a.RequestsMem).2 = none) :
    parseResources P a =
      ({ Limits := some [("cpu", (parseQuantity P a.LimitsCPU).1),
                         ("memory", (parseQuantity P a.LimitsMem).1)],
         Requests := some [("cpu", (parseQuantity P a.RequestsCPU).1),
                           ("memory", (parseQuantity P a.RequestsMem).1)] }, none) ∧
    (∀ c, ContainerSidecar P a = (c, none) →
      c.Resources =
        { Limits := some [("cpu", (parseQuantity P a.LimitsCPU).1),
                          ("memory", (parseQuantity P a.LimitsMem).1)],
          Requests := some [("cpu", (parseQuantity P a.RequestsCPU).1),
                            ("memory", (parseQuantity P a.RequestsMem).1)] }) ∧
    ((P.ContainerEnvVars a false).2 = none → (ContainerSidecar P a).2 = none) := by
  have hok : (parseResources P a).2 = none := by
    rw [parseResources_error]
    simp [List.findSome?, h1, h2, h3, h4]
  have hv := parseResources_value P a hok
  have hres : parseResources P a =
      ({ Limits := some [("cpu", (parseQuantity P a.LimitsCPU).1),
                         ("memory", (parseQuantity P a.LimitsMem).1)],
         Requests := some [("cpu", (parseQuantity P a.RequestsCPU).1),
                           ("memory", (parseQuantity P a.RequestsMem).1)] }, none) :=
    Prod.ext hv hok
  refine ⟨hres, ?_, ?_⟩
  · intro c hc
    obtain ⟨envs, resources, -, hr, rfl⟩ := ContainerSidecar_eq_ok P a c hc
    rw [hres] at hr
    exact (congrArg Prod.fst hr).symm
  · intro henv
    rw [ContainerSidecar_error, henv, hok]

/-- Witness of C13 on the sample agent with the default resource strings. -/
theorem C13_resources_slots_witness :
    (ContainerSidecar samplePackage sampleAgent).1.Resources =
      { Limits := some
          [("cpu", { i := { value := 500, scale := -3 }, d := none, s := "500m",
                     Format := "DecimalSI" }),
           ("memory", { i := { value := 134217728, scale := 0 }, d := none, s := "",
                        Format := "BinarySI" })],
        Requests := some
          [("cpu", { i := { value := 250, scale := -3 }, d := none, s := "250m",
                     Format := "DecimalSI" }),
           ("memory", { i := { value := 67108864, scale := 0 }, d := none, s := "",
                        Format := "BinarySI" })] } :=
  ((C13_resources_slots samplePackage sampleAgent (by decide) (by decide) (by decide)
    (by decide)).2.1 (ContainerSidecar samplePackage sampleAgent).1 (by decide)).trans
    (by decide)

/-! ## Fixed fields and mount order -/

/-- C14: the container of a successful `ContainerSidecar` has the name `vault-agent`, the
command `/bin/sh -ec`, exactly one argument, the image of the agent, and as environment the
list that `ContainerEnvVars(false)` returned, unchanged. -/
theorem C14_fixed_fields (P : Package) (a : Agent) (c : corev1.Container)
    (h : ContainerSidecar P a = (c, none)) :
    c.Name = "vault-agent" ∧ c.Command = ["/bin/sh", "-ec"] ∧ c.Args.length = 1 ∧
    c.Image = a.ImageName ∧ c.Env = (P.ContainerEnvVars a false).1 := by
  obtain ⟨envs, resources, henv, -, rfl⟩ := ContainerSidecar_eq_ok P a c h
  simp [henv]

/-- Witness of C14 on the sample agent. -/
theorem C14_fixed_fields_witness :
    (ContainerSidecar samplePackage sampleAgent).1.Name = "vault-agent" ∧
    (ContainerSidecar samplePackage sampleAgent).1.Image = "vault:1.3.2" ∧
    (ContainerSidecar samplePackage sampleAgent).1.Env =
      [{ Name := "VAULT_LOG_LEVEL", Value := "info" }] :=
  have h := C14_fixed_fields samplePackage sampleAgent
    (ContainerSidecar samplePackage sampleAgent).1 (by decide)
  ⟨h.1, h.2.2.2.1, h.2.2.2.2⟩

/-- C15: the volume mounts of a successful `ContainerSidecar` are the read-write secret mount
and the read-only service-account mount, then the config-map mount exactly when `ConfigMapName`
is non-empty, then the TLS-secret mount exactly when `Vault.TLSSecret` is non-empty. The length
is 2, plus 1 for a config map, plus 1 for a TLS secret; the first two entries are always the
two base mounts; and with both optional mounts the config-map mount (index 2) comes before the
TLS-secret mount (index 3). -/
theorem C15_volume_mounts_shape (P : Package) (a : Agent) (c : corev1.Container)
    (h : ContainerSidecar P a = (c, none)) :
    c.VolumeMounts =
      [ { Name := P.secretVolumeName, MountPath := P.secretVolumePath, ReadOnly := false },
        { Name := a.ServiceAccountName, MountPath := a.ServiceAccountPath, ReadOnly := true } ]
      ++ (if a.ConfigMapName ≠ "" then
            [{ Name := P.configVolumeName, MountPath := P.configVolumePath, ReadOnly := true }]
          else [])
      ++ (if a.Vault.TLSSecret ≠ "" then
            [{ Name := P.tlsSecretVolumeName, MountPath := P.tlsSecretVolumePath,
               ReadOnly := true }]
          else []) ∧
    c.VolumeMounts.length =
      2 + (if a.ConfigMapName ≠ "" then 1 else 0) + (if a.Vault.TLSSecret ≠ "" then 1 else 0) ∧
    c.VolumeMounts.get? 0 =
      some { Name := P.secretVolumeName, MountPath := P.secretVolumePath, ReadOnly := false } ∧
    c.VolumeMounts.get? 1 =
      some { Name := a.ServiceAccountName, MountPath := a.ServiceAccountPath,
             ReadOnly := true } ∧
    (a.ConfigMapName ≠ "" →
      c.VolumeMounts.get? 2 =
        some { Name := P.configVolumeName, MountPath := P.configVolumePath,
               ReadOnly := true }) ∧
    (a.ConfigMapName ≠ "" → a.Vault.TLSSecret ≠ "" →
      c.VolumeMounts.get? 3 =
        some { Name := P.tlsSecretVolumeName, MountPath := P.tlsSecretVolumePath,
               ReadOnly := true }) ∧
    (a.ConfigMapName = "" → a.Vault.TLSSecret ≠ "" →
      c.VolumeMounts.get? 2 =
        some { Name := P.tlsSecretVolumeName, MountPath := P.tlsSecretVolumePath,
               ReadOnly := true }) := by
  obtain ⟨envs, resources, -, -, rfl⟩ := ContainerSidecar_eq_ok P a c h
  refine ⟨rfl, ?_, ?_, ?_, ?_, ?_, ?_⟩
  · by_cases hcm : a.ConfigMapName = "" <;> by_cases htls : a.Vault.TLSSecret = "" <;>
      simp [hcm, htls]
  · simp
  · simp
  · intro hcm
    simp [hcm]
  · intro hcm htls
    simp [hcm, htls]
  · intro hcm htls
    simp [hcm, htls]

/-- Witness of C15 on the sample agent with a config map and a TLS secret: four mounts in
the order secret, service account, config map, TLS secret. -/
theorem C15_volume_mounts_shape_witness :
    (ContainerSidecar samplePackage configMapAgent).1.VolumeMounts.length = 4 ∧
    (ContainerSidecar samplePackage configMapAgent).1.VolumeMounts.get? 2 =
      some { Name := "vault-config", MountPath := "/vault/configs", ReadOnly := true } ∧
    (ContainerSidecar samplePackage configMapAgent).1.VolumeMounts.get? 3 =
      some { Name := "vault-tls-secrets", MountPath := "/vault/tls", ReadOnly := true } :=
  have h := C15_volume_mounts_shape samplePackage configMapAgent
    (ContainerSidecar samplePackage configMapAgent).1 (by decide)
  ⟨h.2.1.trans (by decide), h.2.2.2.2.1 (by decide), h.2.2.2.2.2.1 (by decide) (by decide)⟩

/-! ## Values returned on failure -/

/-- C16: the value that `parseResources` returns with an error depends on the first rejected
field. For `LimitsCPU` or `LimitsMem` both maps are unset; for `RequestsCPU` or `RequestsMem`
the limits map is set, holding the two parsed limit quantities, and the requests map is
unset. -/
theorem C16_value_returned_with_error (P : Package) (a : Agent) :
    (∀ e, (parseQuantity P a.LimitsCPU).2 = some e →
      parseResources P a = ({ Limits := none, Requests := none }, some e)) ∧
    (∀ e, (parseQuantity P a.LimitsCPU).2 = none → (parseQuantity P a.LimitsMem).2 = some e →
      parseResources P a = ({ Limits := none, Requests := none }, some e)) ∧
    (∀ e, (parseQuantity P a.LimitsCPU).2 = none → (parseQuantity P a.LimitsMem).2 = none →
      (parseQuantity P a.RequestsCPU).2 = some e →
      parseResources P a =
        ({ Limits := some [("cpu", (parseQuantity P a.LimitsCPU).1),
                           ("memory", (parseQuantity P a.LimitsMem).1)],
           Requests := none }, some e)) ∧
    (∀ e, (parseQuantity P a.LimitsCPU).2 = none → (parseQuantity P a.LimitsMem).2 = none →
      (parseQuantity P a.RequestsCPU).2 = none → (parseQuantity P a.RequestsMem).2 = some e →
      parseResources P a =
        ({ Limits := some [("cpu", (parseQuantity P a.LimitsCPU).1),
                           ("memory", (parseQuantity P a.LimitsMem).1)],
           Requests := none }, some e)) := by
  unfold parseResources
  rcases h1 : parseQuantity P a.LimitsCPU with ⟨q1, _ | e1⟩ <;>
  rcases h2 : parseQuantity P a.LimitsMem with ⟨q2, _ | e2⟩ <;>
  rcases h3 : parseQuantity P a.RequestsCPU with ⟨q3, _ | e3⟩ <;>
  rcases h4 : parseQuantity P a.RequestsMem with ⟨q4, _ | e4⟩ <;>
  simp [corev1.ResourceList.set, corev1.ResourceCPU, corev1.ResourceMemory,
    corev1.ResourceRequirements.zeroValue]

/-- Witness of C16: an invalid CPU limit gives the empty value, an invalid memory request gives
a value with the limits map set and the requests map unset. -/
theorem C16_value_returned_with_error_witness :
    parseResources samplePackage badLimitAgent =
      ({ Limits := none, Requests := none }, some { msg := "invalid quantity: abc" }) ∧
    parseResources samplePackage badRequestAgent =
      ({ Limits := some
           [("cpu", { i := { value := 500, scale := -3 }, d := none, s := "500m",
                      Format := "DecimalSI" }),
            ("memory", { i := { value := 134217728, scale := 0 }, d := none, s := "",
                         Format := "BinarySI" })],
         Requests := none }, some { msg := "invalid quantity: abc" }) :=
  ⟨(C16_value_returned_with_error samplePackage badLimitAgent).1
      { msg := "invalid quantity: abc" } (by decide),
   ((C16_value_returned_with_error samplePackage badRequestAgent).2.2.2
      { msg := "invalid quantity: abc" } (by decide) (by decide) (by decide)
      (by decide)).trans (by decide)⟩

/-- C17: when `ContainerEnvVars(false)` fails with `e`, `ContainerSidecar` returns the
zero-valued container and `e` itself, whatever the four resource strings are; an error of
`parseResources` is not returned in that case. -/
theorem C17_env_error_first (P : Package) (a : Agent) (e : Error)
    (henv : (P.ContainerEnvVars a false).2 = some e) :
    ContainerSidecar P a =
      ({ Name := "", Image := "", Env := [],
         Resources := { Limits := none, Requests := none },
         SecurityContext := none, Lifecycle := none, VolumeMounts := [], Command := [],
         Args := [] }, some e) := by
  unfold ContainerSidecar
  rcases hEnv : P.ContainerEnvVars a false with ⟨envs, _ | e1⟩
  · rw [hEnv] at henv; simp at henv
  · rw [hEnv] at henv
    simp only [Option.some.injEq] at henv
    subst henv
    rfl

/-- Witness of C17: with the failing environment builder and an invalid CPU limit, the error
of the environment builder is returned, not the one of `parseResources`. -/
theorem C17_env_error_first_witness :
    (parseResources failingEnvPackage badLimitAgent).2 =
      some { msg := "invalid quantity: abc" } ∧
    ContainerSidecar failingEnvPackage badLimitAgent =
      ({ Name := "", Image := "", Env := [],
         Resources := { Limits := none, Requests := none },
         SecurityContext := none, Lifecycle := none, VolumeMounts := [], Command := [],
         Args := [] }, some { msg := "env" }) :=
  ⟨by decide, C17_env_error_first failingEnvPackage badLimitAgent { msg := "env" } (by decide)⟩

/-! ## Independence of the settings -/

/-- C18: two agents that agree on `ConfigMapName`, `Vault.TLSSecret`, `ServiceAccountName` and
`ServiceAccountPath`, and on which `ContainerSidecar` succeeds, get equal `Args` and equal
`VolumeMounts`; two agents that agree on `RevokeOnShutdown`, `RevokeGrace` and the output of
`vaultCliFlags` get equal lifecycles from `createLifecycle`. -/
theorem C18_settings_independent (P : Package) (a1 a2 : Agent) :
    (∀ c1 c2, a1.ConfigMapName = a2.ConfigMapName → a1.Vault.TLSSecret = a2.Vault.TLSSecret →
      a1.ServiceAccountName = a2.ServiceAccountName →
      a1.ServiceAccountPath = a2.ServiceAccountPath →
      ContainerSidecar P a1 = (c1, none) → ContainerSidecar P a2 = (c2, none) →
      c1.Args = c2.Args ∧ c1.VolumeMounts = c2.VolumeMounts) ∧
    (a1.RevokeOnShutdown = a2.RevokeOnShutdown → a1.RevokeGrace = a2.RevokeGrace →
      P.vaultCliFlags a1 = P.vaultCliFlags a2 →
      createLifecycle P a1 = createLifecycle P a2) := by
  constructor
  · intro c1 c2 hcm htls hname hpath h1 h2
    obtain ⟨envs1, res1, -, -, rfl⟩ := ContainerSidecar_eq_ok P a1 c1 h1
    obtain ⟨envs2, res2, -, -, rfl⟩ := ContainerSidecar_eq_ok P a2 c2 h2
    simp only [hcm, htls, hname, hpath, and_self]
  · intro hrev hgrace hflags
    unfold createLifecycle
    rw [hrev, hgrace, hflags]

/-- Witness of C18: `sampleAgent` and `otherSettingsAgent` differ in image, resources and
shutdown settings and get the same arguments and mounts; `sampleAgent` and `configMapAgent`
differ in the mount settings and get the same lifecycle. -/
theorem C18_settings_independent_witness :
    ((ContainerSidecar samplePackage sampleAgent).1.Args =
        (ContainerSidecar samplePackage otherSettingsAgent).1.Args ∧
      (ContainerSidecar samplePackage sampleAgent).1.VolumeMounts =
        (ContainerSidecar samplePackage otherSettingsAgent).1.VolumeMounts) ∧
    createLifecycle samplePackage sampleAgent = createLifecycle samplePackage configMapAgent :=
  ⟨(C18_settings_independent samplePackage sampleAgent otherSettingsAgent).1
      (ContainerSidecar samplePackage sampleAgent).1
      (ContainerSidecar samplePackage otherSettingsAgent).1
      (by decide) (by decide) (by decide) (by decide) (by decide) (by decide),
   (C18_settings_independent samplePackage sampleAgent configMapAgent).2
      (by decide) (by decide) (by decide)⟩

end VaultK8s
